import Mathlib

/-!
A shallow embedding of the comic-flex slideshow program (src/main.go,
current revision) together with proofs about it.  Pure functions of the Go
source are translated into Lean functions; the GTK event handlers become a
step function on an explicit state type; fallible operations return Except.
Go unsigned integer arithmetic is modelled as Nat with explicit reduction
modulo 2 ^ 64 (64-bit platform); the float64 arithmetic of the scaling code
is modelled by exact rational arithmetic with explicit truncation toward
zero for the float-to-int conversions.
-/

namespace ComicFlex

/-- Manifest entry (struct Entry). -/
structure Entry where
  id : String
  title : String
  imagePath : String
  description : String
  deriving DecidableEq, Repr

/-- Manifest (struct Manifest). -/
structure Manifest where
  entries : List Entry
  deriving DecidableEq, Repr

/-- Config (struct Config).  SlideInterval is a Go uint: its value is a
natural number below 2 ^ 64 and arithmetic on it wraps. -/
structure Config where
  contentDirectory : String
  manifestPath : String
  slideInterval : Nat
  fillColor : String
  textColor : String
  enableText : Bool
  isRandomOrder : Bool
  deriving DecidableEq, Repr

/-- One visit of filepath.Walk: the visited path and whether it is a
directory. -/
structure WalkEntry where
  path : String
  isDir : Bool
  deriving DecidableEq, Repr

/-- Helper for goExt: scan the reversed character list of the path,
accumulating the suffix, until the final dot (return the suffix from the
dot) or a path separator (no extension) is met. -/
def extFromRev : List Char → List Char → String
  | [], _ => ""
  | c :: rest, acc =>
    if c = '/' then ""
    else if c = '.' then String.mk ('.' :: acc)
    else extFromRev rest (c :: acc)

/-- Go filepath.Ext: the suffix beginning at the final dot in the final
element of the path, empty if there is no dot. -/
def goExt (p : String) : String := extFromRev p.data.reverse []

/-- The extension allow-list of the switch in listImagesAsync (line 87). -/
def allowedExtensions : List String := [".jpg", ".jpeg", ".png", ".gif", ".bmp"]

/-- The walk of listImagesAsync as collected by listImages: non-directory
entries whose extension is in the allow-list, in walk order (the channel
delivers the paths in the order the walk sends them). -/
def collectImages (entries : List WalkEntry) : List String :=
  (entries.filter fun e => !e.isDir && allowedExtensions.contains (goExt e.path)).map
    (fun e => e.path)

/-- The in-place swap images[i], images[j] = images[j], images[i] performed
by the shuffle callback (line 131). -/
def swapAt (l : List String) (i j : Nat) : List String :=
  match l[i]?, l[j]? with
  | some a, some b => (l.set i b).set j a
  | _, _ => l

/-- The Fisher-Yates loop of rand.Shuffle: for i from n - 1 down to 1, swap
position i with a chosen position js i (rand.Intn(i + 1) guarantees
js i ≤ i; the proofs below need no such bound). -/
def shuffleLoop (js : Nat → Nat) : Nat → List String → List String
  | 0, l => l
  | i + 1, l => shuffleLoop js i (swapAt l (i + 1) (js (i + 1)))

/-- rdm.Shuffle(len(images), swap) with the random source abstracted into
the choice function js. -/
def goShuffle (js : Nat → Nat) (l : List String) : List String :=
  shuffleLoop js (l.length - 1) l

/-- listImages (lines 102-136): collect the walk results, then shuffle
exactly once when isRandomOrder is set. -/
def listImages (entries : List WalkEntry) (isRandomOrder : Bool) (js : Nat → Nat) :
    List String :=
  let images := collectImages entries
  if isRandomOrder then goShuffle js images else images

/-- The caption widgets: whether drawingArea and textContainer are attached
to the overlay, and the markup of the two labels. -/
structure CaptionState where
  bandAttached : Bool
  titleMarkup : String
  descMarkup : String
  deriving DecidableEq, Repr

/-- The Pango markup updateImage writes into a label. -/
def spanMarkup (color font text : String) : String :=
  "<span foreground=\"" ++ color ++ "\" font=\"" ++ font ++ "\">" ++ text ++ "</span>"

/-- Caption state after main has attached the widgets (lines 264 and 272)
with both labels created empty. -/
def mainInitialCaption : CaptionState :=
  { bandAttached := true, titleMarkup := "", descMarkup := "" }

/-- The caption block of updateImage (lines 345-360): only entered when
enableText is set; it clears the labels, detaches both widgets, then at the
first entry whose image path equals the displayed path exactly re-attaches
them with the entry's markup and breaks. -/
def updateCaption (enableText : Bool) (textColor : String) (entries : List Entry)
    (imagePath : String) (s : CaptionState) : CaptionState :=
  if enableText then
    match entries.find? (fun e => e.imagePath == imagePath) with
    | some e =>
      { bandAttached := true,
        titleMarkup := spanMarkup textColor "24" e.title,
        descMarkup := spanMarkup textColor "20" e.description }
    | none => { bandAttached := false, titleMarkup := "", descMarkup := "" }
  else s

/-- Go % on int is the truncated remainder. -/
def goMod (a b : Int) : Int := a.tmod b

/-- The range check at the top of updateImage (lines 289-291). -/
def clampIndex (n : Nat) (i : Int) : Int :=
  if i < 0 ∨ (n : Int) ≤ i then 0 else i

/-- The UI events that drive the slideshow. -/
inductive Ev
  | timerFire
  | keyNext      -- KEY_space or KEY_Right
  | keyPrev      -- KEY_Left
  | keyOther     -- any other key: the handler still runs updateImage
  | click
  deriving DecidableEq, Repr

/-- The mutable slideshow state: currentIndex, and whether a slide timeout
source is currently armed. -/
structure SlideshowState where
  currentIndex : Int
  timerArmed : Bool
  deriving DecidableEq, Repr

/-- State after main: currentIndex 0, one slide timeout armed by the single
glib.TimeoutAdd call (line 374). -/
def initialState : SlideshowState :=
  { currentIndex := 0, timerArmed := true }

/-- One event-loop transition for an image list of length n.  The timeout
callback (lines 374-379) advances the index, runs updateImage (whose range
check clamps the index) and returns false, removing its own source without
arming a new one; the key handler (lines 382-398) and the click handler
(lines 401-405) update the index and run updateImage, leaving the timer
untouched. -/
def step (n : Nat) : Ev → SlideshowState → SlideshowState
  | .timerFire, s =>
    if s.timerArmed then
      { currentIndex := clampIndex n (goMod (s.currentIndex + 1) (n : Int)),
        timerArmed := false }
    else s
  | .keyNext, s =>
    { s with currentIndex := clampIndex n (goMod (s.currentIndex + 1) (n : Int)) }
  | .keyPrev, s =>
    { s with currentIndex :=
        clampIndex n (if s.currentIndex = 0 then (n : Int) - 1 else s.currentIndex - 1) }
  | .keyOther, s => { s with currentIndex := clampIndex n s.currentIndex }
  | .click, s =>
    { s with currentIndex := clampIndex n (goMod (s.currentIndex + 1) (n : Int)) }

/-- Run a sequence of events through the event loop. -/
def run (n : Nat) (evs : List Ev) (s : SlideshowState) : SlideshowState :=
  evs.foldl (fun t e => step n e t) s

/-- A decoded pixbuf: its pixel dimensions. -/
structure Pixbuf where
  width : Int
  height : Int
  deriving DecidableEq, Repr

/-- One deferred gdk.Pixbuf.Unref(*p) call of a cleanup closure; p is the
pointer being dereferenced, none when the pointer is nil. -/
inductive CleanupStep
  | unrefPtr (p : Option Pixbuf)
  deriving DecidableEq, Repr

/-- Running a cleanup closure: dereferencing a nil pixbuf pointer is a Go
runtime panic, which terminates the program. -/
def runCleanup : List CleanupStep → Except String Unit
  | [] => Except.ok ()
  | CleanupStep.unrefPtr none :: _ =>
    Except.error ("runtime error: invalid memory address or nil pointer dereference")
  | CleanupStep.unrefPtr (some _) :: rest => runCleanup rest

/-- Go conversion int(x): truncation toward zero, on exact rationals. -/
def goTrunc (q : ℚ) : Int := q.num.tdiv (q.den : Int)

/-- The textCardHeight constant (line 255). -/
def textCardHeight : Int := 150

/-- The scaling computation of updateImage (lines 321-329): subtract the
caption band height from the window height, take the smaller of the two
axis ratios as the scale, and truncate the scaled dimensions to int. -/
def computeScaledSize (winW winH ow oh : Int) : Int × Int :=
  let height := winH - textCardHeight
  let scale : ℚ := min ((winW : ℚ) / (ow : ℚ)) ((height : ℚ) / (oh : ℚ))
  (goTrunc ((ow : ℚ) * scale), goTrunc ((oh : ℚ) * scale))

/-- The scale variable of updateImage (line 325), on its own:
math.Min(float64(width)/float64(origWidth), float64(height)/float64(origHeight))
with height already reduced by the caption band. -/
def scaleFactor (winW winH ow oh : Int) : ℚ :=
  min ((winW : ℚ) / (ow : ℚ)) (((winH - textCardHeight : Int) : ℚ) / (oh : ℚ))

/-- Everything one updateImage call produces. -/
structure UpdateOutcome where
  newIndex : Int
  displayed : Option (Int × Int)
  caption : CaptionState
  logged : Bool
  fatal : Bool
  cleanup : List CleanupStep
  deriving DecidableEq, Repr

/-- updateImage (lines 288-366).  decode abstracts gdk.PixbufNewFromFile,
which on failure returns a nil pixbuf pointer together with the error, so
the error branch's closure captures a nil pointer; scaleOk abstracts the
error return of pixbuf.ScaleSimple (whose failure is log.Fatal).  Returns
none when images is empty, where images[currentIndex] panics.  The
``pixbuf == nil`` check of line 304 is unreachable when decode succeeds and
is therefore absent. -/
def updateImage (images : List String) (idx0 : Int)
    (decode : String → Except String Pixbuf) (winW winH : Int) (scaleOk : Bool)
    (enableText : Bool) (textColor : String) (entries : List Entry)
    (cap : CaptionState) : Option UpdateOutcome :=
  let idx := clampIndex images.length idx0
  match images[idx.toNat]? with
  | none => none
  | some imagePath =>
    some (match decode imagePath with
    | Except.error _ =>
      { newIndex := idx, displayed := none, caption := cap,
        logged := true, fatal := false,
        cleanup := [CleanupStep.unrefPtr none] }
    | Except.ok pixbuf =>
      if pixbuf.width = 0 ∨ pixbuf.height = 0 then
        { newIndex := idx, displayed := none, caption := cap,
          logged := true, fatal := false,
          cleanup := [CleanupStep.unrefPtr (some pixbuf)] }
      else
        let sz := computeScaledSize winW winH pixbuf.width pixbuf.height
        let scaled : Pixbuf := { width := sz.1, height := sz.2 }
        if scaleOk then
          { newIndex := idx, displayed := some sz,
            caption := updateCaption enableText textColor entries imagePath cap,
            logged := false, fatal := false,
            cleanup := [CleanupStep.unrefPtr (some pixbuf),
                        CleanupStep.unrefPtr (some scaled)] }
        else
          { newIndex := idx, displayed := none, caption := cap,
            logged := false, fatal := true,
            cleanup := [CleanupStep.unrefPtr (some pixbuf),
                        CleanupStep.unrefPtr (some scaled)] })

/-- One hex digit, as read by a %x conversion of fmt.Sscanf. -/
def hexDigit (c : Char) : Option Nat :=
  if '0' ≤ c ∧ c ≤ '9' then some (c.toNat - Char.toNat '0')
  else if 'a' ≤ c ∧ c ≤ 'f' then some (c.toNat - Char.toNat 'a' + 10)
  else if 'A' ≤ c ∧ c ≤ 'F' then some (c.toNat - Char.toNat 'A' + 10)
  else none

/-- A %02x conversion of fmt.Sscanf: one or two hex digits, value and rest
of the input. -/
def readHex2 : List Char → Option (Nat × List Char)
  | [] => none
  | c :: rest =>
    match hexDigit c with
    | none => none
    | some d1 =>
      match rest with
      | c2 :: rest2 =>
        match hexDigit c2 with
        | some d2 => some (16 * d1 + d2, rest2)
        | none => some (d1, rest)
      | [] => some (d1, [])

/-- hexToRGB (lines 138-145): fmt.Sscanf(hexColor, "#%02x%02x%02x", ...), a
number-sign character then three 1-2 digit hex groups; trailing input is
ignored by Sscanf.  The Go function divides each byte by 255 into a
float64; the model returns the three parsed bytes. -/
def hexToRGB (hexColor : String) : Except String (Nat × Nat × Nat) :=
  match hexColor.data with
  | '#' :: rest =>
    match readHex2 rest with
    | none => Except.error ("input does not match format")
    | some (r, rest1) =>
      match readHex2 rest1 with
      | none => Except.error ("input does not match format")
      | some (g, rest2) =>
        match readHex2 rest2 with
        | none => Except.error ("input does not match format")
        | some (b, _) => Except.ok (r, g, b)
  | _ => Except.error ("input does not match format")

/-- loadConfig (lines 57-71): os.ReadFile then yaml.Unmarshal, each failure
returned as is. -/
def loadConfig (readResult : Except String String)
    (unmarshal : String → Except String Config) : Except String Config := do
  let data ← readResult
  unmarshal data

/-- loadManifest (lines 41-55): os.ReadFile then yaml.Unmarshal, each
failure returned as is. -/
def loadManifest (readResult : Except String String)
    (unmarshal : String → Except String Manifest) : Except String Manifest := do
  let data ← readResult
  unmarshal data

/-- The modulus of Go uint arithmetic on a 64-bit platform. -/
def uintSize : Nat := 2 ^ 64

/-- The settings main derives from the config. -/
structure ResolvedSettings where
  contentDirectory : String
  slideInterval : Nat
  fillColor : String
  enableText : Bool
  textColor : String
  manifestPath : String
  deriving DecidableEq, Repr

/-- The default-filling block of main (lines 153-183).  The slide interval
is uint arithmetic: the product with 1000 wraps modulo 2 ^ 64. -/
def resolveSettings (config : Config) : ResolvedSettings :=
  let contentDirectory :=
    if config.contentDirectory = "" then "./content" else config.contentDirectory
  let slideInterval0 := config.slideInterval * 1000 % uintSize
  let slideInterval := if slideInterval0 = 0 then 30000 else slideInterval0
  let fillColor := if config.fillColor = "" then "#ADD8E6" else config.fillColor
  let enableText := config.enableText
  let textColor := if config.textColor = "" then "#000000" else config.textColor
  let manifestPath :=
    if config.manifestPath = "" then "./manifest.yaml" else config.manifestPath
  { contentDirectory := contentDirectory, slideInterval := slideInterval,
    fillColor := fillColor, enableText := enableText, textColor := textColor,
    manifestPath := manifestPath }

/-- Everything main has built once the slideshow is ready to run. -/
structure SlideshowInit where
  settings : ResolvedSettings
  fillRGB : Nat × Nat × Nat
  manifest : Manifest
  images : List String
  state : SlideshowState
  deriving Repr

/-- The startup sequence of main (lines 148-284): load the config, fill the
defaults, parse the fill color, load the manifest at the resolved path,
build the UI, list the images, and create the slideshow state with index 0
and the timer armed.  Every log.Fatal termination is the error case.
manifestRead maps the resolved manifest path to the result of os.ReadFile;
uiInit abstracts the fallible GTK setup; walkEntries is the (successful)
directory walk of the resolved content directory. -/
def mainStartup (configRead : Except String String)
    (configUnmarshal : String → Except String Config)
    (manifestRead : String → Except String String)
    (manifestUnmarshal : String → Except String Manifest)
    (uiInit : Except String Unit)
    (walkEntries : List WalkEntry) (js : Nat → Nat) : Except String SlideshowInit := do
  let config ← loadConfig configRead configUnmarshal
  let settings := resolveSettings config
  let rgb ← hexToRGB settings.fillColor
  let manifest ← loadManifest (manifestRead settings.manifestPath) manifestUnmarshal
  let _ ← uiInit
  let images := listImages walkEntries config.isRandomOrder js
  Except.ok { settings := settings, fillRGB := rgb, manifest := manifest,
              images := images, state := initialState }

/-! ## Helper lemmas about the event-loop state machine -/

lemma clampIndex_range (n : Nat) (hn : 0 < n) (i : Int) :
    0 ≤ clampIndex n i ∧ clampIndex n i < (n : Int) := by
  unfold clampIndex
  by_cases h : i < 0 ∨ (n : Int) ≤ i
  · rw [if_pos h]
    exact ⟨le_refl 0, by exact_mod_cast hn⟩
  · rw [if_neg h]
    push_neg at h
    exact h

lemma clampIndex_eq_self {n : Nat} {i : Int} (h0 : 0 ≤ i) (h1 : i < (n : Int)) :
    clampIndex n i = i := by
  unfold clampIndex
  rw [if_neg]
  push_neg
  exact ⟨h0, h1⟩

lemma step_range (n : Nat) (hn : 0 < n) (e : Ev) (s : SlideshowState)
    (h0 : 0 ≤ s.currentIndex) (h1 : s.currentIndex < (n : Int)) :
    0 ≤ (step n e s).currentIndex ∧ (step n e s).currentIndex < (n : Int) := by
  cases e with
  | timerFire =>
    by_cases h : s.timerArmed = true
    · simp only [step, h, if_true]
      exact clampIndex_range n hn _
    · simp only [step, h]
      simp only [Bool.not_eq_true] at h
      simp [h]
      exact ⟨h0, h1⟩
  | keyNext => exact clampIndex_range n hn _
  | keyPrev => exact clampIndex_range n hn _
  | keyOther => exact clampIndex_range n hn _
  | click => exact clampIndex_range n hn _

lemma run_range (n : Nat) (hn : 0 < n) :
    ∀ (evs : List Ev) (s : SlideshowState),
      0 ≤ s.currentIndex → s.currentIndex < (n : Int) →
      0 ≤ (run n evs s).currentIndex ∧ (run n evs s).currentIndex < (n : Int) := by
  intro evs
  induction evs with
  | nil => intro s h0 h1; exact ⟨h0, h1⟩
  | cons e rest ih =>
    intro s h0 h1
    have hs := step_range n hn e s h0 h1
    exact ih (step n e s) hs.1 hs.2

/-! ## Claim theorems -/

/-- C2: the claim says every transition re-arms the slide timer.  In the
current revision the timeout is armed exactly once in main: the timeout
callback returns false (removing its own source) without adding a new one,
and neither the key handler nor the click handler touches the timer, so no
transition ever arms a timer.  This theorem evaluates the code's step
function: after any event the timer is armed only if it was already armed
and the event is not a timer fire. -/
theorem timer_never_rearmed : ∀ (n : Nat) (e : Ev) (s : SlideshowState),
    (step n e s).timerArmed = (s.timerArmed && !(e == Ev.timerFire)) := by
  intro n e s
  cases e <;> cases h : s.timerArmed <;> simp [step, h]

/-- C3: starting from index 0 with a nonempty image list, every sequence of
transitions keeps the current index inside [0, len(images)), and each
single event handler maps an in-range index to an in-range index. -/
theorem index_stays_in_range (n : Nat) (hn : 0 < n) (evs : List Ev)
    (e : Ev) (s : SlideshowState)
    (h0 : 0 ≤ s.currentIndex) (h1 : s.currentIndex < (n : Int)) :
    (0 ≤ (run n evs initialState).currentIndex ∧
      (run n evs initialState).currentIndex < (n : Int))
  ∧ (0 ≤ (step n e s).currentIndex ∧ (step n e s).currentIndex < (n : Int)) := by
  constructor
  · refine run_range n hn evs initialState (le_refl 0) ?_
    show (0 : Int) < (n : Int)
    exact_mod_cast hn
  · exact step_range n hn e s h0 h1

theorem index_stays_in_range_witness :
    0 < 3
  ∧ (0 ≤ ({ currentIndex := 1, timerArmed := false } : SlideshowState).currentIndex)
  ∧ ({ currentIndex := 1, timerArmed := false } : SlideshowState).currentIndex < ((3 : Nat) : Int)
  ∧ ((0 ≤ (run 3 [Ev.timerFire, Ev.keyPrev, Ev.click] initialState).currentIndex ∧
        (run 3 [Ev.timerFire, Ev.keyPrev, Ev.click] initialState).currentIndex < ((3 : Nat) : Int))
      ∧ (0 ≤ (step 3 Ev.keyPrev { currentIndex := 1, timerArmed := false }).currentIndex ∧
          (step 3 Ev.keyPrev { currentIndex := 1, timerArmed := false }).currentIndex < ((3 : Nat) : Int))) :=
  ⟨by decide, by decide, by decide,
    index_stays_in_range 3 (by decide) [Ev.timerFire, Ev.keyPrev, Ev.click]
      Ev.keyPrev { currentIndex := 1, timerArmed := false } (by decide) (by decide)⟩

/-- C4: with n images and an in-range index i, a timer fire, a right-arrow
or space key press, or a mouse click sets the index to (i + 1) mod n, and a
left-arrow key press sets it to i - 1 when i > 0 and to n - 1 when i = 0.
(The Go truncated % agrees with the mathematical mod on these nonnegative
operands, and the updateImage range check leaves an in-range index
unchanged.) -/
theorem transition_arithmetic (n : Nat) (i : Int) (b : Bool)
    (hn : 0 < n) (h0 : 0 ≤ i) (h1 : i < (n : Int)) :
    (step n Ev.timerFire { currentIndex := i, timerArmed := true }).currentIndex
      = (i + 1) % (n : Int)
  ∧ (step n Ev.keyNext { currentIndex := i, timerArmed := b }).currentIndex
      = (i + 1) % (n : Int)
  ∧ (step n Ev.click { currentIndex := i, timerArmed := b }).currentIndex
      = (i + 1) % (n : Int)
  ∧ (step n Ev.keyPrev { currentIndex := i, timerArmed := b }).currentIndex
      = (if i = 0 then (n : Int) - 1 else i - 1) := by
  have hnz : ((n : Int)) ≠ 0 := by
    have : (0 : Int) < (n : Int) := by exact_mod_cast hn
    exact ne_of_gt this
  have hnpos : (0 : Int) < (n : Int) := by exact_mod_cast hn
  have hmod : goMod (i + 1) (n : Int) = (i + 1) % (n : Int) := by
    unfold goMod
    exact Int.tmod_eq_emod (by omega) (by omega)
  have hclamp : clampIndex n ((i + 1) % (n : Int)) = (i + 1) % (n : Int) :=
    clampIndex_eq_self (Int.emod_nonneg (i + 1) hnz) (Int.emod_lt_of_pos (i + 1) hnpos)
  refine ⟨?_, ?_, ?_, ?_⟩
  · simp only [step, if_true]
    rw [hmod, hclamp]
  · simp only [step]
    rw [hmod, hclamp]
  · simp only [step]
    rw [hmod, hclamp]
  · simp only [step]
    by_cases h : i = 0
    · rw [if_pos h]
      exact clampIndex_eq_self (by omega) (by omega)
    · rw [if_neg h]
      exact clampIndex_eq_self (by omega) (by omega)

theorem transition_arithmetic_witness :
    0 < 3 ∧ (0 : Int) ≤ 2 ∧ (2 : Int) < ((3 : Nat) : Int)
  ∧ ((step 3 Ev.timerFire { currentIndex := 2, timerArmed := true }).currentIndex
        = (2 + 1) % ((3 : Nat) : Int)
      ∧ (step 3 Ev.keyNext { currentIndex := 2, timerArmed := false }).currentIndex
          = (2 + 1) % ((3 : Nat) : Int)
      ∧ (step 3 Ev.click { currentIndex := 2, timerArmed := false }).currentIndex
          = (2 + 1) % ((3 : Nat) : Int)
      ∧ (step 3 Ev.keyPrev { currentIndex := 2, timerArmed := false }).currentIndex
          = (if (2 : Int) = 0 then ((3 : Nat) : Int) - 1 else (2 : Int) - 1)) :=
  ⟨by decide, by decide, by decide,
    transition_arithmetic 3 2 false (by decide) (by decide) (by decide)⟩

/-- C1 counterexample: with enable_text false the transition leaves the
caption state untouched, so the caption band attached by main at startup
(lines 264 and 272) stays attached even though no manifest entry matches -
the claimed "shown iff enable_text and exact match" equivalence fails. -/
theorem caption_iff_counterexample :
    (updateCaption false "#000000" [] "./content/a.png" mainInitialCaption).bandAttached = true
  ∧ (false && ([] : List Entry).any (fun e => e.imagePath == "./content/a.png")) = false :=
  ⟨rfl, rfl⟩

/-- C1 amended: when enable_text is true, after the transition the caption
overlay is attached exactly when some manifest entry's image path equals
the displayed path (string equality); when enable_text is false the
transition leaves the caption state unchanged, so the widgets attached at
startup remain attached with empty labels. -/
theorem caption_amended (textColor : String) (entries : List Entry)
    (imagePath : String) (s : CaptionState) :
    (updateCaption true textColor entries imagePath s).bandAttached
      = entries.any (fun e => e.imagePath == imagePath)
  ∧ updateCaption false textColor entries imagePath s = s := by
  constructor
  · unfold updateCaption
    rw [if_pos rfl]
    cases h : entries.find? (fun e => e.imagePath == imagePath) with
    | none =>
      rw [List.find?_eq_none] at h
      simp only []
      symm
      rw [List.any_eq_false]
      intro e he
      exact h e he
    | some e =>
      have hmem : e ∈ entries := List.mem_of_find?_eq_some h
      have hp := List.find?_some h
      simp only []
      symm
      rw [List.any_eq_true]
      exact ⟨e, hmem, hp⟩
  · unfold updateCaption
    rw [if_neg]
    simp

/-- C7: the claim says a decode failure is logged and the slide skipped
with a no-op cleanup, without terminating the program.  The code does log
the failure, would not call log.Fatal, and leaves index and caption
untouched - but the cleanup closure it returns captures the nil pixbuf
pointer that gdk.PixbufNewFromFile produced together with the error, and
gdk.Pixbuf.Unref(*pixbuf) dereferences it, so running the cleanup (which
every call site does immediately) is a nil-pointer panic, not a no-op. -/
theorem decode_failure_cleanup_derefs_nil :
    updateImage ["./content/bad.png"] 0 (fun _ => Except.error ("decode failed"))
        1920 1080 true true "#000000" [] mainInitialCaption
      = some { newIndex := 0, displayed := none, caption := mainInitialCaption,
               logged := true, fatal := false,
               cleanup := [CleanupStep.unrefPtr none] }
  ∧ runCleanup [CleanupStep.unrefPtr none]
      = Except.error ("runtime error: invalid memory address or nil pointer dereference")
  ∧ runCleanup [CleanupStep.unrefPtr none] ≠ Except.ok () := by
  refine ⟨by decide, rfl, by simp [runCleanup]⟩

/-- C10 counterexample: the slide interval is Go uint arithmetic, so the
multiplication by 1000 wraps modulo 2 ^ 64.  For slide_interval = 2 ^ 61
the product is 2 ^ 64 * 125, which wraps to 0, and the code then installs
the 30000 default - not the claimed configured-value-times-1000. -/
theorem slide_interval_wrap_counterexample :
    (resolveSettings
      { contentDirectory := "", manifestPath := "", slideInterval := 2 ^ 61,
        fillColor := "", textColor := "", enableText := false,
        isRandomOrder := false }).slideInterval = 30000
  ∧ (2 ^ 61 : Nat) ≠ 0
  ∧ (2 ^ 61 : Nat) * 1000 ≠ 30000 := by
  refine ⟨by decide, by decide, by decide⟩

/-- C10 amended: missing or zero-valued fields are replaced with the fixed
defaults before use; the slide interval is the configured value times 1000
computed in uint (wrapping modulo 2 ^ 64), with 30000 installed when that
product is zero - in particular, whenever the product does not overflow,
a zero slide_interval becomes 30000 and any other value becomes the
configured value in seconds times 1000. -/
theorem defaults_amended (c : Config) :
    (resolveSettings c).contentDirectory
      = (if c.contentDirectory = "" then "./content" else c.contentDirectory)
  ∧ (resolveSettings c).slideInterval
      = (if c.slideInterval * 1000 % uintSize = 0 then 30000
         else c.slideInterval * 1000 % uintSize)
  ∧ (c.slideInterval * 1000 < uintSize →
      (resolveSettings c).slideInterval
        = (if c.slideInterval = 0 then 30000 else c.slideInterval * 1000))
  ∧ (resolveSettings c).fillColor = (if c.fillColor = "" then "#ADD8E6" else c.fillColor)
  ∧ (resolveSettings c).enableText = c.enableText
  ∧ (resolveSettings c).textColor = (if c.textColor = "" then "#000000" else c.textColor)
  ∧ (resolveSettings c).manifestPath
      = (if c.manifestPath = "" then "./manifest.yaml" else c.manifestPath) := by
  refine ⟨rfl, rfl, ?_, rfl, rfl, rfl, rfl⟩
  intro h
  show (if c.slideInterval * 1000 % uintSize = 0 then 30000
        else c.slideInterval * 1000 % uintSize)
      = (if c.slideInterval = 0 then 30000 else c.slideInterval * 1000)
  rw [Nat.mod_eq_of_lt h]
  by_cases hz : c.slideInterval = 0
  · rw [if_pos hz, if_pos (by rw [hz])]
  · rw [if_neg hz, if_neg (by exact fun hc => hz (by omega))]

theorem defaults_amended_witness :
    ({ contentDirectory := "", manifestPath := "m.yaml", slideInterval := 5,
       fillColor := "", textColor := "#FFFFFF", enableText := true,
       isRandomOrder := true } : Config).slideInterval * 1000 < uintSize
  ∧ (resolveSettings
      { contentDirectory := "", manifestPath := "m.yaml", slideInterval := 5,
        fillColor := "", textColor := "#FFFFFF", enableText := true,
        isRandomOrder := true }).slideInterval
      = (if ({ contentDirectory := "", manifestPath := "m.yaml", slideInterval := 5,
               fillColor := "", textColor := "#FFFFFF", enableText := true,
               isRandomOrder := true } : Config).slideInterval = 0 then 30000
         else ({ contentDirectory := "", manifestPath := "m.yaml", slideInterval := 5,
                 fillColor := "", textColor := "#FFFFFF", enableText := true,
                 isRandomOrder := true } : Config).slideInterval * 1000) :=
  ⟨by decide,
    (defaults_amended
      { contentDirectory := "", manifestPath := "m.yaml", slideInterval := 5,
        fillColor := "", textColor := "#FFFFFF", enableText := true,
        isRandomOrder := true }).2.2.1 (by decide)⟩

/-! ## Helper lemmas about the enumerator and the shuffle -/

lemma cons_set_perm :
    ∀ (xs : List String) (k : Nat) (x b : String),
      xs[k]? = some b → (b :: xs.set k x).Perm (x :: xs) := by
  intro xs
  induction xs with
  | nil => intro k x b h; simp at h
  | cons y t ih =>
    intro k x b h
    cases k with
    | zero =>
      rw [List.getElem?_cons_zero] at h
      injection h with hb
      subst hb
      show (y :: x :: t).Perm (x :: y :: t)
      exact List.Perm.swap x y t
    | succ k =>
      rw [List.getElem?_cons_succ] at h
      show (b :: y :: t.set k x).Perm (x :: y :: t)
      have h1 : (b :: y :: t.set k x).Perm (y :: b :: t.set k x) := List.Perm.swap y b _
      have h2 : (y :: b :: t.set k x).Perm (y :: x :: t) := List.Perm.cons y (ih k x b h)
      have h3 : (y :: x :: t).Perm (x :: y :: t) := List.Perm.swap x y t
      exact (h1.trans h2).trans h3

lemma set_set_perm :
    ∀ (l : List String) (i j : Nat) (a b : String),
      l[i]? = some a → l[j]? = some b → ((l.set i b).set j a).Perm l := by
  intro l
  induction l with
  | nil => intro i j a b hi hj; simp at hi
  | cons x t ih =>
    intro i j a b hi hj
    cases i with
    | zero =>
      rw [List.getElem?_cons_zero] at hi
      injection hi with ha
      subst ha
      cases j with
      | zero =>
        rw [List.getElem?_cons_zero] at hj
        injection hj with hb
        subst hb
        show (x :: t).Perm (x :: t)
        exact List.Perm.refl _
      | succ j =>
        rw [List.getElem?_cons_succ] at hj
        show (b :: t.set j x).Perm (x :: t)
        exact cons_set_perm t j x b hj
    | succ i =>
      rw [List.getElem?_cons_succ] at hi
      cases j with
      | zero =>
        rw [List.getElem?_cons_zero] at hj
        injection hj with hb
        subst hb
        show (a :: t.set i x).Perm (x :: t)
        exact cons_set_perm t i x a hi
      | succ j =>
        rw [List.getElem?_cons_succ] at hj
        show (x :: (t.set i b).set j a).Perm (x :: t)
        exact List.Perm.cons x (ih i j a b hi hj)

lemma swapAt_perm (l : List String) (i j : Nat) : (swapAt l i j).Perm l := by
  unfold swapAt
  cases hi : l[i]? with
  | none => exact List.Perm.refl l
  | some a =>
    cases hj : l[j]? with
    | none => exact List.Perm.refl l
    | some b => exact set_set_perm l i j a b hi hj

lemma shuffleLoop_perm (js : Nat → Nat) :
    ∀ (k : Nat) (l : List String), (shuffleLoop js k l).Perm l := by
  intro k
  induction k with
  | zero => intro l; exact List.Perm.refl l
  | succ k ih =>
    intro l
    exact (ih (swapAt l (k + 1) (js (k + 1)))).trans (swapAt_perm l (k + 1) (js (k + 1)))

lemma goShuffle_perm (js : Nat → Nat) (l : List String) : (goShuffle js l).Perm l :=
  shuffleLoop_perm js (l.length - 1) l

lemma mem_collectImages_ext {entries : List WalkEntry} {p : String}
    (h : p ∈ collectImages entries) : goExt p ∈ allowedExtensions := by
  unfold collectImages at h
  rw [List.mem_map] at h
  obtain ⟨e, he, rfl⟩ := h
  rw [List.mem_filter] at he
  have hb := he.2
  rw [Bool.and_eq_true] at hb
  simpa using hb.2

/-- C5: every path the enumerator returns has one of the extensions .jpg,
.jpeg, .png, .gif, .bmp (with or without the shuffle), and when the shuffle
is not requested the returned paths are a sublist of the walk output in
walk order. -/
theorem enumerator_extensions_and_order (entries : List WalkEntry) (b : Bool)
    (js : Nat → Nat) :
    (∀ p ∈ listImages entries b js, goExt p ∈ allowedExtensions)
  ∧ (listImages entries false js).Sublist (entries.map (fun e => e.path)) := by
  constructor
  · intro p hp
    apply mem_collectImages_ext
    cases b with
    | false => exact hp
    | true =>
      unfold listImages at hp
      rw [if_pos rfl] at hp
      exact (goShuffle_perm js (collectImages entries)).mem_iff.1 hp
  · show (collectImages entries).Sublist (entries.map (fun e => e.path))
    exact List.Sublist.map (fun e => e.path) (List.filter_sublist entries)

theorem enumerator_extensions_witness :
    "./content/a.jpg" ∈ listImages
      [ { path := "./content", isDir := true },
        { path := "./content/a.jpg", isDir := false },
        { path := "./content/notes.txt", isDir := false },
        { path := "./content/b.png", isDir := false } ] false (fun _ => 0)
  ∧ goExt "./content/a.jpg" ∈ allowedExtensions :=
  ⟨by decide,
    (enumerator_extensions_and_order
      [ { path := "./content", isDir := true },
        { path := "./content/a.jpg", isDir := false },
        { path := "./content/notes.txt", isDir := false },
        { path := "./content/b.png", isDir := false } ] false (fun _ => 0)).1
      "./content/a.jpg" (by decide)⟩

/-- C6: when the random-order flag is false listImages returns the
collected walk output unchanged (no shuffle at all); when the flag is true
it applies the single Fisher-Yates pass, whose result is a permutation of
the collected list - same multiset of paths and same length - for every
sequence of random choices. -/
theorem shuffle_only_when_configured (entries : List WalkEntry) (js : Nat → Nat) :
    listImages entries false js = collectImages entries
  ∧ (listImages entries true js).Perm (collectImages entries)
  ∧ (listImages entries true js).length = (collectImages entries).length := by
  refine ⟨rfl, ?_, ?_⟩
  · exact goShuffle_perm js (collectImages entries)
  · exact (goShuffle_perm js (collectImages entries)).length_eq

/-! ## Helper lemmas about truncation of nonnegative rationals -/

lemma goTrunc_eq_floor {q : ℚ} (h : 0 ≤ q) : goTrunc q = ⌊q⌋ := by
  unfold goTrunc
  rw [Int.tdiv_eq_ediv (Rat.num_nonneg.2 h) (Int.natCast_nonneg q.den)]
  exact (Rat.floor_def).symm

lemma goTrunc_nonneg {q : ℚ} (h : 0 ≤ q) : 0 ≤ goTrunc q := by
  rw [goTrunc_eq_floor h]
  exact Int.floor_nonneg.2 h

lemma goTrunc_le_int {q : ℚ} {z : Int} (h0 : 0 ≤ q) (h : q ≤ (z : ℚ)) : goTrunc q ≤ z := by
  rw [goTrunc_eq_floor h0]
  have hf := Int.floor_le_floor h
  rwa [Int.floor_intCast] at hf

/-- C8: for positive original dimensions and a window strictly larger than
the reserved caption band of 150, the scale is the minimum of
window_width / original_width and (window_height - 150) / original_height,
both dimensions are scaled by that same factor (so the pre-truncation sizes
are in the original aspect ratio), and the truncated result fits inside the
window minus the caption band. -/
theorem scale_fits_and_preserves_aspect (winW winH ow oh : Int)
    (hW : 0 < winW) (hH : textCardHeight < winH) (how : 0 < ow) (hoh : 0 < oh) :
    textCardHeight = 150
  ∧ computeScaledSize winW winH ow oh
      = (goTrunc ((ow : ℚ) * scaleFactor winW winH ow oh),
         goTrunc ((oh : ℚ) * scaleFactor winW winH ow oh))
  ∧ 0 ≤ (computeScaledSize winW winH ow oh).1
  ∧ (computeScaledSize winW winH ow oh).1 ≤ winW
  ∧ 0 ≤ (computeScaledSize winW winH ow oh).2
  ∧ (computeScaledSize winW winH ow oh).2 ≤ winH - textCardHeight
  ∧ ((ow : ℚ) * scaleFactor winW winH ow oh) / ((oh : ℚ) * scaleFactor winW winH ow oh)
      = (ow : ℚ) / (oh : ℚ) := by
  have howQ : (0 : ℚ) < (ow : ℚ) := by exact_mod_cast how
  have hohQ : (0 : ℚ) < (oh : ℚ) := by exact_mod_cast hoh
  have hWQ : (0 : ℚ) < (winW : ℚ) := by exact_mod_cast hW
  have hHQ : (0 : ℚ) < ((winH - textCardHeight : Int) : ℚ) := by
    have hpos : (0 : Int) < winH - textCardHeight := by omega
    exact_mod_cast hpos
  have hs0 : 0 < scaleFactor winW winH ow oh :=
    lt_min (div_pos hWQ howQ) (div_pos hHQ hohQ)
  have hsW : scaleFactor winW winH ow oh ≤ (winW : ℚ) / (ow : ℚ) := min_le_left _ _
  have hsH : scaleFactor winW winH ow oh ≤ ((winH - textCardHeight : Int) : ℚ) / (oh : ℚ) :=
    min_le_right _ _
  have hle1 : (ow : ℚ) * scaleFactor winW winH ow oh ≤ (winW : ℚ) := by
    calc (ow : ℚ) * scaleFactor winW winH ow oh
        ≤ (ow : ℚ) * ((winW : ℚ) / (ow : ℚ)) := mul_le_mul_of_nonneg_left hsW howQ.le
      _ = (winW : ℚ) := by field_simp
  have hle2 : (oh : ℚ) * scaleFactor winW winH ow oh ≤ ((winH - textCardHeight : Int) : ℚ) := by
    calc (oh : ℚ) * scaleFactor winW winH ow oh
        ≤ (oh : ℚ) * (((winH - textCardHeight : Int) : ℚ) / (oh : ℚ)) :=
          mul_le_mul_of_nonneg_left hsH hohQ.le
      _ = ((winH - textCardHeight : Int) : ℚ) := by field_simp
  have hn1 : 0 ≤ (ow : ℚ) * scaleFactor winW winH ow oh := mul_nonneg howQ.le hs0.le
  have hn2 : 0 ≤ (oh : ℚ) * scaleFactor winW winH ow oh := mul_nonneg hohQ.le hs0.le
  refine ⟨rfl, rfl, ?_, ?_, ?_, ?_, ?_⟩
  · show 0 ≤ goTrunc ((ow : ℚ) * scaleFactor winW winH ow oh)
    exact goTrunc_nonneg hn1
  · show goTrunc ((ow : ℚ) * scaleFactor winW winH ow oh) ≤ winW
    exact goTrunc_le_int hn1 hle1
  · show 0 ≤ goTrunc ((oh : ℚ) * scaleFactor winW winH ow oh)
    exact goTrunc_nonneg hn2
  · show goTrunc ((oh : ℚ) * scaleFactor winW winH ow oh) ≤ winH - textCardHeight
    exact goTrunc_le_int hn2 hle2
  · exact mul_div_mul_right (ow : ℚ) (oh : ℚ) (ne_of_gt hs0)

theorem scale_fits_witness :
    (0 : Int) < 1920 ∧ textCardHeight < 1080 ∧ (0 : Int) < 800 ∧ (0 : Int) < 600
  ∧ (computeScaledSize 1920 1080 800 600).1 ≤ 1920 :=
  ⟨by decide, by decide, by decide, by decide,
    (scale_fits_and_preserves_aspect 1920 1080 800 600
      (by decide) (by decide) (by decide) (by decide)).2.2.2.1⟩

/-! ## Helper lemmas about the startup sequence -/

lemma except_bind_error {ε α β : Type} (e : ε) (f : α → Except ε β) :
    (Except.error e >>= f) = Except.error e := rfl

lemma except_bind_ok {ε α β : Type} (a : α) (f : α → Except ε β) :
    (Except.ok a >>= f) = f a := rfl

lemma isOk_iff {ε α : Type} (x : Except ε α) :
    x.isOk = true ↔ ∃ a, x = Except.ok a := by
  cases x <;> simp [Except.isOk, Except.toBool]

lemma loadConfig_error_eq (e : String) (cu : String → Except String Config) :
    loadConfig (Except.error e) cu = Except.error e := rfl

lemma loadConfig_ok_eq (d : String) (cu : String → Except String Config) :
    loadConfig (Except.ok d) cu = cu d := rfl

lemma loadManifest_error_eq (e : String) (mu : String → Except String Manifest) :
    loadManifest (Except.error e) mu = Except.error e := rfl

lemma loadManifest_ok_eq (d : String) (mu : String → Except String Manifest) :
    loadManifest (Except.ok d) mu = mu d := rfl

lemma mainStartup_eq (cr : Except String String)
    (cu : String → Except String Config) (mr : String → Except String String)
    (mu : String → Except String Manifest) (ui : Except String Unit)
    (w : List WalkEntry) (js : Nat → Nat) :
    mainStartup cr cu mr mu ui w js
      = (loadConfig cr cu >>= fun config =>
          hexToRGB (resolveSettings config).fillColor >>= fun rgb =>
          loadManifest (mr (resolveSettings config).manifestPath) mu >>= fun manifest =>
          ui >>= fun _ =>
          Except.ok { settings := resolveSettings config, fillRGB := rgb,
                      manifest := manifest,
                      images := listImages w config.isRandomOrder js,
                      state := initialState }) := rfl

/-- C9: loadConfig and loadManifest return an error exactly when the file
read or the YAML unmarshal fails, and main's startup aborts fatally on
such an error - in particular no slideshow state is produced (the startup
result is the error, not a SlideshowInit). -/
theorem fatal_startup_on_load_errors (cr : Except String String)
    (cu : String → Except String Config) (mr : String → Except String String)
    (mu : String → Except String Manifest) (ui : Except String Unit)
    (w : List WalkEntry) (js : Nat → Nat) :
    ((loadConfig cr cu).isOk = true ↔ ∃ d c, cr = Except.ok d ∧ cu d = Except.ok c)
  ∧ (∀ r : Except String String,
      (loadManifest r mu).isOk = true ↔ ∃ d m, r = Except.ok d ∧ mu d = Except.ok m)
  ∧ ((loadConfig cr cu).isOk = false → (mainStartup cr cu mr mu ui w js).isOk = false)
  ∧ (∀ c, loadConfig cr cu = Except.ok c →
      (loadManifest (mr (resolveSettings c).manifestPath) mu).isOk = false →
      (mainStartup cr cu mr mu ui w js).isOk = false) := by
  refine ⟨?_, ?_, ?_, ?_⟩
  · cases cr with
    | error e =>
      rw [loadConfig_error_eq]
      simp [Except.isOk, Except.toBool]
    | ok d =>
      rw [loadConfig_ok_eq]
      cases hcu : cu d with
      | error e => simp [Except.isOk, Except.toBool, hcu]
      | ok c =>
        simp only [Except.isOk, Except.toBool]
        constructor
        · intro _; exact ⟨d, c, rfl, hcu⟩
        · intro _; trivial
  · intro r
    cases r with
    | error e =>
      rw [loadManifest_error_eq]
      simp [Except.isOk, Except.toBool]
    | ok d =>
      rw [loadManifest_ok_eq]
      cases hmu : mu d with
      | error e => simp [Except.isOk, Except.toBool, hmu]
      | ok m =>
        simp only [Except.isOk, Except.toBool]
        constructor
        · intro _; exact ⟨d, m, rfl, hmu⟩
        · intro _; trivial
  · intro h
    rw [mainStartup_eq]
    cases hcr : loadConfig cr cu with
    | error e => rw [except_bind_error]; rfl
    | ok c => rw [hcr] at h; exact absurd h (by simp [Except.isOk, Except.toBool])
  · intro c hc hm
    rw [mainStartup_eq, hc, except_bind_ok]
    cases hrgb : hexToRGB (resolveSettings c).fillColor with
    | error e => rw [except_bind_error]; rfl
    | ok rgb =>
      rw [except_bind_ok]
      cases hman : loadManifest (mr (resolveSettings c).manifestPath) mu with
      | error e => rw [except_bind_error]; rfl
      | ok m => rw [hman] at hm; exact absurd hm (by simp [Except.isOk, Except.toBool])

theorem fatal_startup_witness :
    (loadConfig (Except.error ("open config.yaml: no such file or directory"))
      (fun _ => Except.ok
        { contentDirectory := "", manifestPath := "", slideInterval := 0,
          fillColor := "", textColor := "", enableText := false,
          isRandomOrder := false })).isOk = false
  ∧ (mainStartup (Except.error ("open config.yaml: no such file or directory"))
      (fun _ => Except.ok
        { contentDirectory := "", manifestPath := "", slideInterval := 0,
          fillColor := "", textColor := "", enableText := false,
          isRandomOrder := false })
      (fun _ => Except.ok "") (fun _ => Except.ok { entries := [] })
      (Except.ok ()) [] (fun _ => 0)).isOk = false :=
  ⟨rfl,
    (fatal_startup_on_load_errors
      (Except.error ("open config.yaml: no such file or directory"))
      (fun _ => Except.ok
        { contentDirectory := "", manifestPath := "", slideInterval := 0,
          fillColor := "", textColor := "", enableText := false,
          isRandomOrder := false })
      (fun _ => Except.ok "") (fun _ => Except.ok { entries := [] })
      (Except.ok ()) [] (fun _ => 0)).2.2.1 rfl⟩

end ComicFlex
